import Mathlib

/-!
Shallow embedding of the `automation-helper-cli` repository (Go) and proofs
about its command dispatch, reference-store lookup, sensor snippet generator,
AI bridge and REPL loop.

Conventions of the embedding:
* Go `map[string]V` literals become association lists `List (String × V)`
  in source order; Go map lookup becomes `List.lookup` (exact string match,
  as in Go).
* Go functions returning `string` become Lean functions returning `String`.
* A Go slice index that can panic (index out of range) is modelled with
  `Option`: `none` is the runtime panic.
* The environment (`os.Getenv`) and the external chat-completion call are
  passed in as function parameters (`getenv`, `call`), so theorems can
  quantify over every possible environment and every external behaviour.
* Go `strings.ToLower` / `strings.Fields` are modelled with `String.toLower`
  and splitting on whitespace characters; all strings the program compares
  are ASCII, where these agree with Go.
-/

/-- Embeds `abb.ABBCommand` from `abb/commands.go`.  Field names `syn`, `ex`,
`descr` stand for the Go fields `Syntax`, `Example`, `Description`
(`Name` keeps its name). -/
structure ABBCommand where
  name : String
  syn : String
  ex : String
  descr : String
deriving DecidableEq

/-- Embeds `abb.Commands` from `abb/commands.go`: the RAPID command table, a Go
`map[string]ABBCommand`, modelled as an association list in source order.
Entries whose `Example` field is not set in the Go literal get Go's zero
value `""`. -/
def Commands : List (String × ABBCommand) := [
  ("move_j", { name := "MoveJ", syn := "MoveJ Target [Speed] [Zone] [Tool]", ex := "",
               descr := "Joint movement - moves robot to position using axis movement" }),
  ("move_l", { name := "MoveL", syn := "MoveL Target [Speed] [Zone] [Tool]", ex := "",
               descr := "Linear movement - moves robot in straight line to position" }),
  ("set_do", { name := "SetDO", syn := "SetDO Signal Value", ex := "",
               descr := "Sets digital output signal" }),
  ("wait_di", { name := "WaitDI", syn := "WaitDI Signal Value [\\MaxTime]", ex := "",
                descr := "Waits for digital input signal to reach specified value" }),
  ("if_statement", { name := "IF", syn := "IF condition THEN ... ENDIF", ex := "",
                     descr := "Conditional execution of instructions" })
]
/-- Embeds `abb.QuickReference` from `abb/quickref.go`: the quick-reference table,
a Go `map[string]string`, modelled as an association list in source order. -/
def QuickReference : List (String × String) := [
  ("coordinate_system", "RAPID Coordinate Systems Guide:\n- World: Global reference system (default)\n- Base: Robot base coordinate system\n- Tool: Defined at tool center point (TCP)\n- WorkObject: Local coordinate system for workpiece\n\nExamples:\n1. Define tool frame:\n   PERS tooldata tool1:=[TRUE,[[100,0,100],[1,0,0,0]],[0.5,[0,0,0.1],[1,0,0,0],0,0,0]];\n\n2. Define work object:\n   PERS wobjdata wobj1:=[FALSE,TRUE,\"\",[[0,0,0],[1,0,0,0]],[[0,0,0],[1,0,0,0]]];"),
  ("data_types", "RAPID Data Types Reference:\nBasic Types:\n- num: Numeric value (float) | Example: VAR num distance := 50.5;\n- bool: TRUE/FALSE         | Example: VAR bool isReady := TRUE;\n- string: Text string      | Example: VAR string message := \"Ready\";\n\nPosition Types:\n- pos: Position [x,y,z]   | Example: VAR pos p1 := [100,200,300];\n- orient: Quaternion      | Example: VAR orient rot1 := [1,0,0,0];\n- pose: Position+orient   | Example: VAR pose target := [[x,y,z],[q1,q2,q3,q4]];\n- robtarget: Full target  | Example: See \x27robtarget\x27 command reference"),
  ("motion_types", "Robot Motion Types Guide:\n1. MoveJ (Joint motion)\n   - Fastest point-to-point movement\n   - Non-linear TCP path\n   - Best for large movements\n\n2. MoveL (Linear motion)\n   - Straight line TCP path\n   - Constant velocity\n   - Good for precise paths\n\n3. MoveC (Circular motion)\n   - Circular TCP path\n   - Requires circle point\n   - Perfect for curved paths\n\n4. SearchL/SearchC\n   - Motion with sensor input\n   - Stops on sensor trigger\n   - Used for part detection"),
  ("speed_settings", "Speed Settings Reference:\nStandard Speeds:\nv5    - 5mm/s    | Very slow, precise movements\nv50   - 50mm/s   | Careful movements\nv100  - 100mm/s  | Normal operation speed\nv500  - 500mm/s  | Fast movements\nv1000 - 1000mm/s | Very fast movements\nv2000 - 2000mm/s | Maximum speed for light tools\nvmax  - Maximum possible speed\n\nCustom Speed:\n[Speeddata]\nv100 := [100, 500, 5000, 1000];\n  - TCP linear speed (mm/s)\n  - TCP reorientation speed (deg/s)\n  - External axis speed\n  - Tool reorientation speed"),
  ("zone_data", "Zone Data (Path Accuracy) Guide:\nfine - Exact positioning (0mm)\nz0   - 0.3mm path radius\nz1   - 1mm path radius\nz5   - 5mm path radius\nz10  - 10mm path radius\nz20  - 20mm path radius\nz50  - 50mm path radius\nz100 - 100mm path radius\n\nUsage Tips:\n- Use \x27fine\x27 for precise operations (picking, placing)\n- Use z1-z5 for normal operations\n- Use z10-z50 for fast movements\n- Larger zones = smoother motion but less accuracy"),
  ("io_handling", "I/O Handling Guide:\nDigital I/O:\n1. Digital Outputs (DO)\n   - SetDO signal, value;    ! Set output\n   - PulseDO signal;         ! Quick pulse output\n   Example:\n   SetDO do_Gripper, 1;      ! Turn on gripper\n   PulseDO do_Reset;         ! Pulse reset signal\n\n2. Digital Inputs (DI)\n   - WaitDI signal, value;   ! Wait for input\n   - IsDI(signal);           ! Check input state\n   Example:\n   WaitDI di_PartPresent, 1;  ! Wait for part\n   IF IsDI(di_Error) THEN     ! Check error signal\n       ! Handle error\n   ENDIF\n\nAnalog I/O:\n1. Analog Outputs (AO)\n   - SetAO signal, value;    ! Set analog value\n   Example:\n   SetAO ao_Speed, 75;       ! Set to 75%\n   SetAO ao_Voltage, v_ref;  ! Set from variable\n\n2. Analog Inputs (AI)\n   - AInput(signal);         ! Read analog input\n   Example:\n   VAR num pressure;\n   pressure := AInput(ai_Pressure);\n\nBest Practices:\n1. Signal Naming:\n   - do_* for digital outputs\n   - di_* for digital inputs\n   - ao_* for analog outputs\n   - ai_* for analog inputs\n\n2. Error Handling:\n   - Use \\MaxTime with WaitDI\n   - Always check signal ranges\n   Example:\n   WaitDI di_Ready, 1 \\MaxTime:=5;  ! Timeout after 5s\n\n3. Signal Groups:\n   - Group related signals\n   - Use consistent naming\n   Example:\n   do_GripperOpen\n   do_GripperClose\n   di_GripperOpened\n   di_GripperClosed\n\n4. Common Patterns:\n   ! Gripper control with feedback\n   SetDO do_GripperClose, 1;\n   WaitDI di_GripperClosed, 1 \\MaxTime:=2;\n   \n   ! Process control\n   SetAO ao_Power, 80;\n   WaitTime 0.5;\n   SetDO do_ProcessStart, 1;"),
  ("error_handling", "Error Handling Guide:\n1. Basic Error Handler:\n   ERROR\n       IF ERRNO = ERR_PATH_STOP THEN\n           StopMove;\n           ClearPath;\n           StartMove;\n           RETRY;\n       ELSE\n           Stop;\n       ENDIF\n\n2. Common Error Types:\n   ERR_PATH_STOP    - Motion path interrupted\n   ERR_COLL_STOP   - Collision detected\n   ERR_OUTOFBND    - Position out of range\n   ERR_REFUNKDAT   - Undefined data used\n   \n3. Recovery Actions:\n   RETRY           - Retry from error point\n   TRYNEXT         - Skip to next instruction\n   RETURN          - Exit routine\n   EXIT            - Exit program\n   \n4. Error Logging:\n   ErrLog error_msg;        | Logs error to system\n   TPWrite \"Error: \" + error_msg;  | Display on FlexPendant"),
  ("basic_program", "Basic Program Structure:\nMODULE MainModule\n    ! Variable declarations\n    PERS tooldata currentTool := [...];\n    PERS wobjdata currentWobj := [...];\n    VAR robtarget homePos;\n    \n    ! Main procedure\n    PROC main()\n        ! Initialize\n        TPWrite \"Program Starting...\";\n        MoveJ homePos, v1000, z50, currentTool;\n        \n        ! Main loop\n        WHILE running DO\n            ! Check conditions\n            IF GetDI di_StartCycle = 1 THEN\n                Cycle;\n            ENDIF\n            \n            ! Error checking\n            ERROR\n                IF ERRNO = ERR_PATH_STOP THEN\n                    TPWrite \"Path was stopped\";\n                    RETRY;\n                ENDIF\n        ENDWHILE\n    ENDPROC\n    \n    ! Subroutines\n    PROC Cycle()\n        MoveJ p10, v1000, z50, currentTool;\n        SetDO do_Gripper, 1;\n        WaitTime 0.5;\n        MoveL p20, v500, fine, currentTool;\n    ENDPROC\nENDMODULE"),
  ("common_patterns", "Common Programming Patterns:\n1. Pick and Place:\n   PROC PickAndPlace()\n       MoveJ approach, v1000, z10, tool1;\n       MoveL pick, v100, fine, tool1;\n       SetDO do_Gripper, 1;\n       WaitTime 0.2;\n       MoveL approach, v100, z10, tool1;\n       MoveJ place_approach, v1000, z10, tool1;\n       MoveL place, v100, fine, tool1;\n       SetDO do_Gripper, 0;\n   ENDPROC\n\n2. Palletizing:\n   PROC Palletize()\n       FOR layer FROM 1 TO 3 DO\n           FOR row FROM 1 TO 2 DO\n               FOR col FROM 1 TO 3 DO\n                   current_pos := Offs(base_pos, \n                       col*100, row*100, layer*50);\n                   MoveL current_pos, v500, fine, tool1;\n               ENDFOR\n           ENDFOR\n       ENDFOR\n   ENDPROC\n\n3. Search Pattern:\n   PROC SearchObject()\n       SearchL \\Stop \\Tool:=tool1 \n           \\MaxTime:=5 \n           \\PoseOffs:=offs \n           start_pos, \n           search_pos, \n           v100, \n           tool1;\n       IF FOUND THEN\n           TPWrite \"Object found!\";\n       ENDIF\n   ENDPROC"),
  ("interrupts", "Interrupt Handling Guide:\n1. Basic Interrupt Setup:\n   CONNECT signal WITH trap_routine;\n   \n2. Trap Structure:\n   TRAP trap_routine\n       ! Your code here\n   ENDTRAP\n   \n3. Common Patterns:\n   ! Emergency stop\n   CONNECT di_Emergency WITH Emergency_Stop;\n   TRAP Emergency_Stop\n       StopMove;\n       SetDO do_Error, 1;\n       Stop;\n   ENDTRAP\n   \n   ! Part detection\n   CONNECT di_PartPresent WITH Handle_Part;\n   TRAP Handle_Part\n       := CRobT();    ! Get position\n       ! Handle part\n   ENDTRAP"),
  ("program_structure", "Program Structure Guide:\n1. Main Program:\n   MODULE MainModule\n       ! Constants\n       CONST robtarget pHome := [...];\n       \n       ! Variables\n       VAR num counter := 0;\n       PERS tooldata currentTool := [...];\n       \n       ! Main procedure\n       PROC main()\n           ! Initialize\n           ! Main loop\n       ENDPROC\n   ENDMODULE\n\n2. Best Practices:\n   - Group related variables\n   - Use meaningful names\n   - Comment complex logic\n   - Structure in modules\n\n3. Common Structure:\n   ! Initialize\n   TPErase;\n   TPWrite \"Program starting...\";\n   MoveJ pHome, v1000, z50, tool0;\n   \n   ! Main loop\n   WHILE running DO\n       ! Process logic\n   ENDWHILE"),
  ("motion_patterns", "Common Motion Patterns:\n1. Pick and Place:\n   MoveJ pApproach, v1000, z10, tool1;    ! Approach\n   MoveL pPick, v100, fine, tool1;        ! Pick\n   SetDO do_Gripper, 1;                   ! Grip\n   WaitDI di_GripperClosed, 1;            ! Verify\n   MoveL pApproach, v100, z10, tool1;     ! Retract\n   \n2. Search Pattern:\n   SearchL \\\\Stop:=di_Contact, pSearch, v100, tool1;\n   pos := CRobT();                        ! Get position\n   \n3. Circular Process:\n   MoveL pStart, v100, fine, tool1;\n   SetDO do_Process, 1;                   ! Start process\n   MoveC pMid, pEnd, v100, z1, tool1;     ! Circular move\n   SetDO do_Process, 0;                   ! End process\n\n4. Palletizing:\n   FOR i FROM 1 TO rows DO\n       FOR j FROM 1 TO cols DO\n           pCurrent := Offs(pBase,i*dx,j*dy,0);\n           MoveL pCurrent, v500, fine, tool1;\n       ENDFOR\n   ENDFOR"),
  ("calibration", "Calibration and Setup Guide:\n1. Tool Calibration:\n   - Use 4-point method\n   - Points should form pyramid\n   - Verify with circular movement\n\n2. Work Object Calibration:\n   - Use 3-point method\n   - First point = origin\n   - Second point = X direction\n   - Third point = Y direction (approx)\n\n3. Best Practices:\n   - Calibrate at operating temperature\n   - Use fine points\n   - Verify with test movements\n   - Document calibration data"),
  ("safety", "Safety Programming Guide:\n1. Emergency Stops:\n   - Use interrupts for immediate response\n   - Always stop motion first\n   - Signal error state\n   - Safe position if possible\n\n2. Motion Safety:\n   - Use collision detection\n   - Check workspace limits\n   - Verify speed in human zones\n   - Use safe zones when needed\n\n3. Process Safety:\n   - Verify tool state\n   - Check process conditions\n   - Monitor process signals\n   - Handle timeouts properly\n\n4. Error Recovery:\n   - Safe error states\n   - Clear error conditions\n   - Restart procedures\n   - Operator confirmation")
]

/-- Embeds the `fmt.Sprintf` rendering in the `command` branch of the `abb`
handler (`main.go`): the detail text printed for a found command entry. -/
def commandDetail (cmd : ABBCommand) : String :=
  "\nCommand: " ++ cmd.name ++ "\nSyntax: " ++ cmd.syn ++
    "\n\nExample:\n" ++ cmd.ex ++ "\n\nDescription:\n" ++ cmd.descr

/-- Embeds the `%-10s` format directive used in the `list` branch of the `abb`
handler: left-justified padding to a minimum width. -/
def padRight (s : String) (w : Nat) : String :=
  s ++ String.mk (List.replicate (w - s.length) ' ')

/-- The usage text the `abb` handler returns when called with no arguments
(`main.go`, raw string literal). -/
def abbUsage : String :=
  "Usage: abb <topic> [subtopic]\nAvailable topics:\n1. command  - Show RAPID command details\n2. quickref - Show programming reference\n3. help     - Show this help message\n\nExamples:\n  abb command move_j     - Show MoveJ command details\n  abb quickref io        - Show I/O handling guide\n  abb list              - List all available commands"

/-- Embeds the `abb` command handler registered in `init` (`main.go`): a switch
on the first remaining token (`command` / `quickref` / `list` / default),
each lookup branch listing all keys when the key argument is omitted,
returning the stored entry when the key is found, and a fixed unknown-key
message otherwise.  The Go code iterates map keys in unspecified order; the
model lists them in source order. -/
def abbExecute (args : List String) : String :=
  match args with
  | [] => abbUsage
  | sub :: rest =>
    if sub = "command" then
      match rest with
      | [] => "Available commands:\n" ++ String.intercalate ", " (Commands.map Prod.fst)
      | key :: _ =>
        match Commands.lookup key with
        | some cmd => commandDetail cmd
        | none => "Unknown ABB command. Type \x27abb command\x27 to see available commands."
    else if sub = "quickref" then
      match rest with
      | [] => "Available quick reference topics:\n" ++ String.intercalate ", " (QuickReference.map Prod.fst)
      | key :: _ =>
        match QuickReference.lookup key with
        | some info => info
        | none => "Unknown topic. Type \x27abb quickref\x27 to see available topics."
    else if sub = "list" then
      "\nABB RAPID Commands:\n================\n" ++
        String.join (Commands.map (fun p => padRight p.2.name 10 ++ " - " ++ p.2.descr ++ "\n"))
    else
      "Unknown ABB subcommand. Available: command, quickref, list"

/-- The template `generateDigitalSensorCode` returns for action `when_on`
(`main.go`, raw string literal). -/
def digitalWhenOnTemplate : String :=
  "\nPLC Ladder Logic:\n|--[INPUT]--|--[OUTPUT]--|\n\nABB Robot:\nIF DI_01 = 1 THEN\n    ! Your action here\nENDIF\n\nSiemens S7:\nIF \"Input_Bit\" THEN\n    // Your action here\nEND_IF"

/-- The template `generateAnalogSensorCode` returns (`main.go`, raw string
literal). -/
def analogTemplate : String :=
  "\nPLC Ladder Logic:\n|--[ANALOG_IN]--|--[SCALE]--|--[COMPARE]--|--[OUTPUT]--|\n\nABB Robot:\nIF AI_01 > SET_POINT THEN\n    ! Your action here\nENDIF\n\nSiemens S7:\nIF \"Analog_Input\" > \"Set_Point\" THEN\n    // Your action here\nEND_IF"

/-- Embeds `generateDigitalSensorCode` (`main.go`): a switch on the action,
with only `when_on` implemented. -/
def generateDigitalSensorCode (action : String) : String :=
  if action = "when_on" then digitalWhenOnTemplate
  else "Unknown action for digital sensor"

set_option linter.unusedVariables false in
/-- Embeds `generateAnalogSensorCode` (`main.go`): the Go function takes the
action argument but its body never reads it — it returns the analog template
unconditionally. -/
def generateAnalogSensorCode (action : String) : String :=
  analogTemplate

/-- Embeds `generateSensorCode` (`main.go`): usage message for fewer than two
arguments, then a switch on the sensor type. -/
def generateSensorCode (args : List String) : String :=
  match args with
  | sensorType :: action :: _ =>
    if sensorType = "digital" then generateDigitalSensorCode action
    else if sensorType = "analog" then generateAnalogSensorCode action
    else "Unknown sensor type. Available types: digital, analog"
  | _ => "Usage: sensor <type> <action>\nExample: sensor digital when_on"

/-- Embeds the message part of an `openai.ChatCompletionChoice`
(`ai/assistant.go` uses only `.Message.Content`). -/
structure ChatMessage where
  content : String
deriving DecidableEq

/-- Embeds `openai.ChatCompletionChoice` as used by `ai/assistant.go`. -/
structure ChatChoice where
  message : ChatMessage
deriving DecidableEq

/-- Embeds `openai.ChatCompletionResponse` as used by `ai/assistant.go`:
only the choices slice is read. -/
structure ChatCompletionResponse where
  choices : List ChatChoice
deriving DecidableEq

/-- Embeds `Assistant.GetHelp` (`ai/assistant.go`).  The outcome of
`client.CreateChatCompletion` is passed in as `callResult` (`Except.error e`
is a transport/API error whose `%v` rendering is `e`).  On error the Go code
returns `fmt.Errorf("AI request failed: %v", err)`; on success it evaluates
`resp.Choices[0].Message.Content`, which panics when the choices slice is
empty — the panic is modelled as `none`. -/
def GetHelp (callResult : Except String ChatCompletionResponse) :
    Option (Except String String) :=
  match callResult with
  | Except.error e => some (Except.error ("AI request failed: " ++ e))
  | Except.ok resp =>
    match resp.choices with
    | [] => none
    | c :: _ => some (Except.ok c.message.content)

/-- Embeds `strings.Join(args[1:], " ")` from the `ai` handler (`main.go`):
the question string forwarded to the AI bridge. -/
def aiQuestion (args : List String) : String :=
  String.intercalate " " args.tail

/-- Embeds the `ai` command handler registered in `init` (`main.go`).
`getenv` models `os.Getenv`; `call` models one round trip of
`client.CreateChatCompletion` on the forwarded question.  `none` models a
panic inside the handler (see `GetHelp`). -/
def aiExecute (getenv : String → String)
    (call : String → Except String ChatCompletionResponse)
    (args : List String) : Option String :=
  if args.length < 2 then
    some "Usage: ai help \"your question about the code\""
  else if getenv "OPENAI_API_KEY" = "" then
    some "Error: OPENAI_API_KEY environment variable not set"
  else
    match GetHelp (call (aiQuestion args)) with
    | none => none
    | some (Except.error e) => some ("Error getting AI help: " ++ e)
    | some (Except.ok response) => some response

/-- Embeds `strings.ToLower` (`main.go` case-folds the first token with it):
per-character lowercasing, written by structural recursion over the string's
characters so that it evaluates definitionally.  On the ASCII tokens the
program compares this agrees with Go. -/
def lowerString (s : String) : String :=
  String.mk (s.data.map Char.toLower)

/-- Helper of `fields`: scans the character list, accumulating the current
token (in reverse) and emitting it at each whitespace run or at the end. -/
def fieldsAux : List Char → List Char → List String
  | [], acc => if acc.isEmpty then [] else [String.mk acc.reverse]
  | c :: cs, acc =>
    if c.isWhitespace then
      if acc.isEmpty then fieldsAux cs []
      else String.mk acc.reverse :: fieldsAux cs []
    else fieldsAux cs (c :: acc)

/-- Embeds `strings.Fields` (`main.go`): split the input line around runs of
whitespace, producing no empty tokens.  `Char.isWhitespace` agrees with Go's
`unicode.IsSpace` on the characters a scanned input line can contain. -/
def fields (s : String) : List String :=
  fieldsAux s.data []

/-- Embeds the `Command` struct of `main.go`.  `exec` returns `Option String`:
`none` models a panic inside the handler. -/
structure Command where
  description : String
  exec : List String → Option String

/-- Embeds `commandRegistry` as populated by `init` (`main.go`), in
registration order.  The `sensor` and `abb` handlers are total; the `ai`
handler is closed over the environment and the external call. -/
def commandRegistry (getenv : String → String)
    (call : String → Except String ChatCompletionResponse) :
    List (String × Command) := [
  ("sensor", { description := "Generate sensor code",
               exec := fun args => some (generateSensorCode args) }),
  ("ai", { description := "Get AI assistance with ABB RAPID code",
           exec := fun args => aiExecute getenv call args }),
  ("abb", { description := "Get ABB robot programming information and examples",
            exec := fun args => some (abbExecute args) })
]

/-- Embeds the output of `printHelp` (`main.go`), iterating the registry in
the model's registration order. -/
def helpText (getenv : String → String)
    (call : String → Except String ChatCompletionResponse) : String :=
  "\nAutomation Helper CLI\n====================\n\nAvailable commands:\n" ++
    String.join ((commandRegistry getenv call).map
      (fun p => "  " ++ p.1 ++ ": " ++ p.2.description ++ "\n")) ++
    "\nType \x27exit\x27 to quit"

/-- Result of processing one input line in the REPL of `main` (`main.go`):
`exit` is the Running→Terminated transition (the `return` in the `exit`
case); `cont out` stays Running, printing `out` when present (`none` for an
empty line, which only re-prompts). -/
inductive StepResult where
  | exit : StepResult
  | cont : Option String → StepResult
deriving DecidableEq

/-- Embeds one iteration of the REPL loop body in `main` (`main.go`): tokenize
the line, case-fold the first token, handle `exit` and `help`, otherwise look
the token up in the registry and run the handler on the remaining tokens.
`none` models a handler panic aborting the process. -/
def replStep (getenv : String → String)
    (call : String → Except String ChatCompletionResponse)
    (line : String) : Option StepResult :=
  match fields line with
  | [] => some (StepResult.cont none)
  | w :: rest =>
    let command := lowerString w
    if command = "exit" then some StepResult.exit
    else if command = "help" then
      some (StepResult.cont (some (helpText getenv call)))
    else
      match (commandRegistry getenv call).lookup command with
      | some cmd => (cmd.exec rest).map (fun r => StepResult.cont (some r))
      | none =>
        some (StepResult.cont (some
          ("Unknown command: " ++ command ++ "\nType \x27help\x27 for available commands")))

/-- Counts the prompts `"\n> "` the REPL prints while consuming the given
input lines (`main.go`): each iteration prints one prompt before reading;
end-of-input, the `exit` transition and a handler panic all end the loop, so
no prompt follows them. -/
def replRun (getenv : String → String)
    (call : String → Except String ChatCompletionResponse) :
    List String → Nat
  | [] => 1
  | l :: ls =>
    match replStep getenv call l with
    | some StepResult.exit => 1
    | some (StepResult.cont _) => 1 + replRun getenv call ls
    | none => 1

/-! ## General lemmas about association-list lookup (the model of Go maps) -/

/-- A key is among an association list's keys iff some value is stored at it. -/
theorem mem_keys_iff {α : Type} (l : List (String × α)) (k : String) :
    k ∈ l.map Prod.fst ↔ ∃ v, (k, v) ∈ l := by
  constructor
  · intro h
    rcases List.mem_map.mp h with ⟨⟨k', v⟩, hp, hk⟩
    cases hk
    exact ⟨v, hp⟩
  · rintro ⟨v, hv⟩
    exact List.mem_map.mpr ⟨(k, v), hv, rfl⟩

/-- Lookup of an absent key misses. -/
theorem lookup_eq_none_of_not_mem {α : Type} (k : String) (l : List (String × α))
    (h : k ∉ l.map Prod.fst) : l.lookup k = none := by
  induction l with
  | nil => rfl
  | cons p t ih =>
    obtain ⟨k', v'⟩ := p
    simp only [List.map_cons, List.mem_cons] at h
    push_neg at h
    obtain ⟨h1, h2⟩ := h
    have hb : (k == k') = false := beq_eq_false_iff_ne.mpr h1
    simp [List.lookup, hb, ih h2]

/-- Lookup of a present key returns its stored value, provided keys repeat
nowhere in the list. -/
theorem lookup_eq_some_of_mem_nodup {α : Type} (k : String) (v : α)
    (l : List (String × α)) (hnd : (l.map Prod.fst).Nodup) (hm : (k, v) ∈ l) :
    l.lookup k = some v := by
  induction l with
  | nil => cases hm
  | cons p t ih =>
    obtain ⟨k', v'⟩ := p
    simp only [List.map_cons, List.nodup_cons] at hnd
    rcases List.mem_cons.mp hm with heq | ht
    · injection heq with h1 h2
      subst h1; subst h2
      simp [List.lookup]
    · have hk : k ≠ k' := by
        intro e
        subst e
        exact hnd.1 ((mem_keys_iff t k).mpr ⟨v, ht⟩)
      have hb : (k == k') = false := beq_eq_false_iff_ne.mpr hk
      simp [List.lookup, hb, ih hnd.2 ht]

/-! ## Unfolding equations for the `abb` handler's key branches -/

/-- `abb quickref <key>` is exactly a lookup in the quick-reference store. -/
theorem abbExecute_quickref_key (k : String) :
    abbExecute ["quickref", k] =
      match QuickReference.lookup k with
      | some info => info
      | none => "Unknown topic. Type \x27abb quickref\x27 to see available topics." := rfl

/-- `abb command <key>` is exactly a lookup in the command store. -/
theorem abbExecute_command_key (k : String) :
    abbExecute ["command", k] =
      match Commands.lookup k with
      | some cmd => commandDetail cmd
      | none => "Unknown ABB command. Type \x27abb command\x27 to see available commands." := rfl

/-! ## Claim theorems -/

/-- C1 counterexample: the claim says every `(sensorType, action)` pair other
than `(digital, when_on)` and `(analog, when_on)` yields a fixed "unknown"
message, but `sensor analog when_off` yields the analog code template, which
is neither unknown message. -/
theorem C1_counterexample :
    generateSensorCode ["analog", "when_off"] = analogTemplate
    ∧ analogTemplate ≠ "Unknown action for digital sensor"
    ∧ analogTemplate ≠ "Unknown sensor type. Available types: digital, analog" :=
  ⟨rfl, by decide, by decide⟩

/-- C1 (amended): `sensor digital when_on` yields the digital template and any
other digital action the fixed "unknown action" message; `sensor analog
<action>` yields the analog template for EVERY action (the action argument is
ignored); any other sensor type yields the fixed "unknown sensor type"
message. -/
theorem C1_sensor_dispatch (a : String) (rest : List String) :
    generateSensorCode ("digital" :: a :: rest) =
      (if a = "when_on" then digitalWhenOnTemplate
       else "Unknown action for digital sensor")
    ∧ generateSensorCode ("analog" :: a :: rest) = analogTemplate
    ∧ ∀ t, t ≠ "digital" → t ≠ "analog" →
        generateSensorCode (t :: a :: rest) =
          "Unknown sensor type. Available types: digital, analog" := by
  refine ⟨?_, rfl, ?_⟩
  · simp [generateSensorCode, generateDigitalSensorCode]
  · intro t h1 h2
    simp [generateSensorCode, h1, h2]

/-- Witness for `C1_sensor_dispatch` at concrete inputs. -/
theorem C1_sensor_dispatch_witness :
    generateSensorCode ["digital", "when_on"] = digitalWhenOnTemplate
    ∧ generateSensorCode ["digital", "when_off"] = "Unknown action for digital sensor"
    ∧ generateSensorCode ["thermal", "when_on"] =
        "Unknown sensor type. Available types: digital, analog" := by
  have h := C1_sensor_dispatch "when_on" []
  have h2 := C1_sensor_dispatch "when_off" []
  exact ⟨by simpa using h.1, by simpa using h2.1, h.2.2 "thermal" (by decide) (by decide)⟩

/-- C4: for every key present in a reference store, `abb quickref <key>`
returns exactly the stored text and `abb command <key>` the stored entry's
detail rendering; for every absent key, each store returns its fixed
unknown-key message.  Both lookups are total functions (no crash). -/
theorem C4_reference_store_lookup (k : String) :
    (∀ v, (k, v) ∈ QuickReference → abbExecute ["quickref", k] = v)
    ∧ (k ∉ QuickReference.map Prod.fst →
        abbExecute ["quickref", k] =
          "Unknown topic. Type \x27abb quickref\x27 to see available topics.")
    ∧ (∀ c, (k, c) ∈ Commands → abbExecute ["command", k] = commandDetail c)
    ∧ (k ∉ Commands.map Prod.fst →
        abbExecute ["command", k] =
          "Unknown ABB command. Type \x27abb command\x27 to see available commands.") := by
  refine ⟨?_, ?_, ?_, ?_⟩
  · intro v hv
    rw [abbExecute_quickref_key,
        lookup_eq_some_of_mem_nodup k v QuickReference (by decide) hv]
  · intro h
    rw [abbExecute_quickref_key, lookup_eq_none_of_not_mem k QuickReference h]
  · intro c hc
    rw [abbExecute_command_key,
        lookup_eq_some_of_mem_nodup k c Commands (by decide) hc]
  · intro h
    rw [abbExecute_command_key, lookup_eq_none_of_not_mem k Commands h]

set_option maxRecDepth 4000 in
/-- Witness for `C4_reference_store_lookup` at concrete keys. -/
theorem C4_reference_store_lookup_witness :
    abbExecute ["quickref", "calibration"] =
      "Calibration and Setup Guide:\n1. Tool Calibration:\n   - Use 4-point method\n   - Points should form pyramid\n   - Verify with circular movement\n\n2. Work Object Calibration:\n   - Use 3-point method\n   - First point = origin\n   - Second point = X direction\n   - Third point = Y direction (approx)\n\n3. Best Practices:\n   - Calibrate at operating temperature\n   - Use fine points\n   - Verify with test movements\n   - Document calibration data"
    ∧ abbExecute ["quickref", "no_such_topic"] =
        "Unknown topic. Type \x27abb quickref\x27 to see available topics."
    ∧ abbExecute ["command", "move_j"] =
        commandDetail { name := "MoveJ", syn := "MoveJ Target [Speed] [Zone] [Tool]",
                        ex := "", descr := "Joint movement - moves robot to position using axis movement" }
    ∧ abbExecute ["command", "no_such_cmd"] =
        "Unknown ABB command. Type \x27abb command\x27 to see available commands." :=
  ⟨(C4_reference_store_lookup "calibration").1 _ (by decide),
   (C4_reference_store_lookup "no_such_topic").2.1 (by decide),
   (C4_reference_store_lookup "move_j").2.2.1 _ (by decide),
   (C4_reference_store_lookup "no_such_cmd").2.2.2 (by decide)⟩

/-- C7: listing with no key argument (`abb command` / `abb quickref`) returns
the header plus the joined key list, and that key list holds exactly the
store's key set: a key appears in it iff some value is stored at it. -/
theorem C7_listing :
    abbExecute ["command"] =
      "Available commands:\n" ++ String.intercalate ", " (Commands.map Prod.fst)
    ∧ abbExecute ["quickref"] =
      "Available quick reference topics:\n" ++
        String.intercalate ", " (QuickReference.map Prod.fst)
    ∧ (∀ k, k ∈ Commands.map Prod.fst ↔ ∃ v, (k, v) ∈ Commands)
    ∧ (∀ k, k ∈ QuickReference.map Prod.fst ↔ ∃ v, (k, v) ∈ QuickReference) :=
  ⟨rfl, rfl, fun k => mem_keys_iff Commands k, fun k => mem_keys_iff QuickReference k⟩

/-! ## Lemmas about the `ai` handler and the REPL step -/

/-- If every successful external response carries at least one choice, the
`ai` handler always returns a message (never panics). -/
theorem aiExecute_isSome (getenv : String → String)
    (call : String → Except String ChatCompletionResponse) (args : List String)
    (hch : ∀ q r, call q = Except.ok r → r.choices ≠ []) :
    (aiExecute getenv call args).isSome := by
  by_cases h1 : args.length < 2
  · simp [aiExecute, h1]
  · by_cases h2 : getenv "OPENAI_API_KEY" = ""
    · simp [aiExecute, h1, h2]
    · simp only [aiExecute, if_neg h1, if_neg h2]
      cases hc : call (aiQuestion args) with
      | error e => simp [GetHelp]
      | ok r =>
        have hne := hch _ _ hc
        cases hr : r.choices with
        | nil => exact absurd hr hne
        | cons c cs => simp [GetHelp, hr]

/-- Unfolding of one REPL iteration on a non-empty token list: the case-folded
first token selects `exit`, `help`, one of the three registered handlers, or
the unknown-command message. -/
theorem replStep_cons (getenv : String → String)
    (call : String → Except String ChatCompletionResponse)
    (line w : String) (rest : List String) (hf : fields line = w :: rest) :
    replStep getenv call line =
      (if lowerString w = "exit" then some StepResult.exit
       else if lowerString w = "help" then some (StepResult.cont (some (helpText getenv call)))
       else if lowerString w = "sensor" then some (StepResult.cont (some (generateSensorCode rest)))
       else if lowerString w = "ai" then (aiExecute getenv call rest).map (fun r => StepResult.cont (some r))
       else if lowerString w = "abb" then some (StepResult.cont (some (abbExecute rest)))
       else some (StepResult.cont (some ("Unknown command: " ++ lowerString w ++ "\nType \x27help\x27 for available commands")))) := by
  unfold replStep
  rw [hf]
  by_cases he : lowerString w = "exit"
  · simp [he]
  · by_cases hh : lowerString w = "help"
    · simp [he, hh]
    · by_cases hs : lowerString w = "sensor"
      · simp [he, hh, hs, commandRegistry, List.lookup]
      · by_cases ha : lowerString w = "ai"
        · simp [he, hh, hs, ha, commandRegistry, List.lookup]
        · by_cases hb : lowerString w = "abb"
          · simp [he, hh, hs, ha, hb, commandRegistry, List.lookup]
          · have bs : (lowerString w == "sensor") = false := beq_eq_false_iff_ne.mpr hs
            have ba : (lowerString w == "ai") = false := beq_eq_false_iff_ne.mpr ha
            have bb : (lowerString w == "abb") = false := beq_eq_false_iff_ne.mpr hb
            simp [he, hh, hs, ha, hb, commandRegistry, List.lookup, bs, ba, bb]

/-- Under the same choices condition, no input line can make a REPL iteration
panic. -/
theorem replStep_isSome (getenv : String → String)
    (call : String → Except String ChatCompletionResponse) (line : String)
    (hch : ∀ q r, call q = Except.ok r → r.choices ≠ []) :
    (replStep getenv call line).isSome := by
  cases hf : fields line with
  | nil =>
    unfold replStep
    rw [hf]
    rfl
  | cons w rest =>
    rw [replStep_cons getenv call line w rest hf]
    rcases Option.isSome_iff_exists.mp (aiExecute_isSome getenv call rest hch) with ⟨v, hv⟩
    split
    · rfl
    · split
      · rfl
      · split
        · rfl
        · split
          · simp [hv]
          · split
            · rfl
            · rfl

/-- Every non-`exit` branch of a REPL iteration stays in the Running state:
the dispatch chain after the `exit` test never produces the `exit` result. -/
theorem replChain_ne_exit (getenv : String → String)
    (call : String → Except String ChatCompletionResponse)
    (w : String) (rest : List String) :
    (if lowerString w = "help" then some (StepResult.cont (some (helpText getenv call)))
     else if lowerString w = "sensor" then some (StepResult.cont (some (generateSensorCode rest)))
     else if lowerString w = "ai" then (aiExecute getenv call rest).map (fun r => StepResult.cont (some r))
     else if lowerString w = "abb" then some (StepResult.cont (some (abbExecute rest)))
     else some (StepResult.cont (some ("Unknown command: " ++ lowerString w ++ "\nType \x27help\x27 for available commands"))))
      ≠ some StepResult.exit := by
  split_ifs <;> simp [Option.map_eq_some']

/-- A REPL iteration takes the Running→Terminated transition exactly when the
case-folded first token of the line is `exit`. -/
theorem replStep_eq_exit_iff (getenv : String → String)
    (call : String → Except String ChatCompletionResponse) (line : String) :
    replStep getenv call line = some StepResult.exit ↔
      (fields line).head?.map lowerString = some "exit" := by
  cases hf : fields line with
  | nil =>
    have hstep : replStep getenv call line = some (StepResult.cont none) := by
      unfold replStep
      rw [hf]
    rw [hstep]
    simp
  | cons w rest =>
    rw [replStep_cons getenv call line w rest hf]
    by_cases he : lowerString w = "exit"
    · simp [he]
    · rw [if_neg he]
      constructor
      · intro h
        exact absurd h (replChain_ne_exit getenv call w rest)
      · intro h
        simp only [List.head?_cons, Option.map_some'] at h
        injection h with h'
        exact absurd h' he

/-- C2 counterexample: a successful external response whose choices slice is
empty makes the `ai` handler panic (`resp.Choices[0]` indexes out of range),
so not every handler invocation on a successful response yields a message. -/
theorem C2_counterexample :
    aiExecute (fun _ => "sk-test") (fun _ => Except.ok { choices := [] })
      ["help", "question"] = none := rfl

/-- C2 (amended): provided every successful external response carries at least
one choice, no input line can make a handler invocation abort — every REPL
iteration returns a result — and every failed external call is converted into
the wrapped user-visible error message.  With an empty choices slice the
first-choice extraction panics (see the counterexample). -/
theorem C2_no_crash (getenv : String → String)
    (call : String → Except String ChatCompletionResponse) (line : String)
    (hch : ∀ q r, call q = Except.ok r → r.choices ≠ []) :
    (replStep getenv call line).isSome
    ∧ ∀ e, GetHelp (Except.error e) =
        some (Except.error ("AI request failed: " ++ e)) :=
  ⟨replStep_isSome getenv call line hch, fun _ => rfl⟩

/-- Witness for `C2_no_crash` with a scripted failing transport. -/
theorem C2_no_crash_witness :
    (replStep (fun _ => "key") (fun _ => Except.error "timeout") "ai help q").isSome
    ∧ GetHelp (Except.error "timeout") =
        some (Except.error ("AI request failed: " ++ "timeout")) :=
  have h := C2_no_crash (fun _ => "key") (fun _ => Except.error "timeout")
    "ai help q" (fun _ _ hq => Except.noConfusion hq)
  ⟨h.1, h.2 "timeout"⟩

/-- C3 counterexample: the line `exit now` does not case-insensitively equal
`exit`, yet the REPL takes the Running→Terminated transition on it (only the
first whitespace token is compared). -/
theorem C3_counterexample :
    replStep (fun _ => "") (fun _ => Except.error "") "exit now" = some StepResult.exit
    ∧ lowerString "exit now" ≠ "exit" :=
  ⟨rfl, by decide⟩

/-- C3 (amended): the REPL transitions Running→Terminated exactly when the
input stream ends or the case-folded FIRST TOKEN of the line is `exit`; after
that transition no further prompt is issued (the run of a list whose head
takes the transition issues exactly one more prompt, regardless of the rest);
any line kept in Running adds its prompt and continues; end-of-input issues
the final prompt on which the read fails; and — provided successful external
responses are non-empty — every line whose first token does not case-fold to
`exit` stays Running. -/
theorem C3_repl_termination (getenv : String → String)
    (call : String → Except String ChatCompletionResponse)
    (line : String) (ls : List String) :
    (replStep getenv call line = some StepResult.exit ↔
      (fields line).head?.map lowerString = some "exit")
    ∧ (replStep getenv call line = some StepResult.exit →
        replRun getenv call (line :: ls) = 1)
    ∧ (∀ out, replStep getenv call line = some (StepResult.cont out) →
        replRun getenv call (line :: ls) = 1 + replRun getenv call ls)
    ∧ replRun getenv call [] = 1
    ∧ ((∀ q r, call q = Except.ok r → r.choices ≠ []) →
        (fields line).head?.map lowerString ≠ some "exit" →
        ∃ out, replStep getenv call line = some (StepResult.cont out)) := by
  refine ⟨replStep_eq_exit_iff getenv call line, ?_, ?_, rfl, ?_⟩
  · intro h
    simp only [replRun]
    rw [h]
  · intro out h
    simp only [replRun]
    rw [h]
  · intro hch hne
    rcases Option.isSome_iff_exists.mp (replStep_isSome getenv call line hch) with ⟨v, hv⟩
    cases v with
    | exit => exact absurd ((replStep_eq_exit_iff getenv call line).mp hv) hne
    | cont out => exact ⟨out, hv⟩

/-- Witness for `C3_repl_termination` at concrete inputs: `EXIT` terminates
with no further prompt even with more input pending; `abb list` stays
Running. -/
theorem C3_repl_termination_witness :
    replStep (fun _ => "") (fun _ => Except.error "down") "EXIT" = some StepResult.exit
    ∧ replRun (fun _ => "") (fun _ => Except.error "down") ["EXIT", "help"] = 1
    ∧ replRun (fun _ => "") (fun _ => Except.error "down") [] = 1
    ∧ ∃ out, replStep (fun _ => "") (fun _ => Except.error "down") "abb list" =
        some (StepResult.cont out) := by
  have h := C3_repl_termination (fun _ => "") (fun _ => Except.error "down") "EXIT" ["help"]
  have he : replStep (fun _ => "") (fun _ => Except.error "down") "EXIT" =
      some StepResult.exit := h.1.mpr (by decide)
  have h2 := C3_repl_termination (fun _ => "") (fun _ => Except.error "down")
    "abb list" ([] : List String)
  exact ⟨he, h.2.1 he, h.2.2.2.1,
         h2.2.2.2.2 (fun _ _ hq => Except.noConfusion hq) (by decide)⟩

/-- C5: with the credential environment variable empty (Go's `os.Getenv`
returns `""` both for empty and unset), the `ai` command given a question
returns the configuration-error message, the result does not depend on the
external call at all (no network call), and the REPL stays Running. -/
theorem C5_missing_credential (getenv : String → String) (args : List String)
    (h2 : 2 ≤ args.length) (hk : getenv "OPENAI_API_KEY" = "") :
    (∀ call, aiExecute getenv call args =
        some "Error: OPENAI_API_KEY environment variable not set")
    ∧ (∀ call call', aiExecute getenv call args = aiExecute getenv call' args)
    ∧ (∀ call line, fields line = "ai" :: args →
        replStep getenv call line =
          some (StepResult.cont
            (some "Error: OPENAI_API_KEY environment variable not set"))) := by
  have hx : ∀ call, aiExecute getenv call args =
      some "Error: OPENAI_API_KEY environment variable not set" := by
    intro call
    have hn : ¬ args.length < 2 := by omega
    simp [aiExecute, hn, hk]
  refine ⟨hx, fun call call' => (hx call).trans (hx call').symm, ?_⟩
  intro call line hf
  rw [replStep_cons getenv call line "ai" args hf]
  have hl : lowerString "ai" = "ai" := rfl
  simp [hl, hx call]

/-- Witness for `C5_missing_credential` at a concrete line. -/
theorem C5_missing_credential_witness :
    replStep (fun _ => "") (fun _ => Except.error "unreachable") "ai help how do I move" =
      some (StepResult.cont
        (some "Error: OPENAI_API_KEY environment variable not set")) :=
  (C5_missing_credential (fun _ => "") ["help", "how", "do", "I", "move"]
      (by decide) rfl).2.2
    (fun _ => Except.error "unreachable") "ai help how do I move" (by decide)

/-- C6: `GetHelp` converts a failed external call into the wrapped error
(`AI request failed: <cause>`) and a successful call into the first response
choice's text exactly; through the `ai` handler that text reaches the user
unmodified. -/
theorem C6_first_choice (e : String) (resp : ChatCompletionResponse) (c : ChatChoice)
    (hc : resp.choices.head? = some c) :
    GetHelp (Except.error e) = some (Except.error ("AI request failed: " ++ e))
    ∧ GetHelp (Except.ok resp) = some (Except.ok c.message.content)
    ∧ ∀ getenv call args, 2 ≤ args.length → getenv "OPENAI_API_KEY" ≠ "" →
        call (aiQuestion args) = Except.ok resp →
        aiExecute getenv call args = some c.message.content := by
  have hg : GetHelp (Except.ok resp) = some (Except.ok c.message.content) := by
    cases hr : resp.choices with
    | nil => rw [hr] at hc; cases hc
    | cons c0 cs =>
      rw [hr] at hc
      simp only [List.head?_cons, Option.some_inj] at hc
      subst hc
      simp [GetHelp, hr]
  refine ⟨rfl, hg, ?_⟩
  intro getenv call args hl hk hcall
  have hn : ¬ args.length < 2 := by omega
  simp [aiExecute, hn, hk, hcall, hg]

/-- Witness for `C6_first_choice` with the scripted response of the spec. -/
theorem C6_first_choice_witness :
    aiExecute (fun _ => "sk")
      (fun _ => Except.ok
        { choices := [{ message := { content := "Use MoveL for straight lines" } }] })
      ["help", "straight lines?"] = some "Use MoveL for straight lines" :=
  (C6_first_choice ""
      { choices := [{ message := { content := "Use MoveL for straight lines" } }] }
      { message := { content := "Use MoveL for straight lines" } } rfl).2.2
    (fun _ => "sk")
    (fun _ => Except.ok
      { choices := [{ message := { content := "Use MoveL for straight lines" } }] })
    ["help", "straight lines?"] (by decide) (by decide) rfl

/-- C8 counterexample: the unknown-command response is not one fixed message —
it embeds the unmatched token, so two unmatched tokens get two different
messages. -/
theorem C8_counterexample :
    replStep (fun _ => "") (fun _ => Except.error "") "foo" =
      some (StepResult.cont (some "Unknown command: foo\nType \x27help\x27 for available commands"))
    ∧ replStep (fun _ => "") (fun _ => Except.error "") "bar" =
      some (StepResult.cont (some "Unknown command: bar\nType \x27help\x27 for available commands"))
    ∧ replStep (fun _ => "") (fun _ => Except.error "") "foo" ≠
      replStep (fun _ => "") (fun _ => Except.error "") "bar" :=
  ⟨rfl, rfl, by decide⟩

/-- C8 (amended): for every line whose case-folded first token matches no
registered handler and is neither `help` nor `exit`, the dispatcher responds
with the unknown-command message built from one fixed template that embeds
the case-folded token and tells the user to type `help`. -/
theorem C8_unknown_command (getenv : String → String)
    (call : String → Except String ChatCompletionResponse)
    (line w : String) (rest : List String)
    (hf : fields line = w :: rest)
    (hn : lowerString w ∉ (["exit", "help", "sensor", "ai", "abb"] : List String)) :
    replStep getenv call line =
      some (StepResult.cont (some
        ("Unknown command: " ++ lowerString w ++ "\nType \x27help\x27 for available commands"))) := by
  simp only [List.mem_cons, List.not_mem_nil, or_false, not_or] at hn
  obtain ⟨he, hh, hs, ha, hb⟩ := hn
  rw [replStep_cons getenv call line w rest hf]
  simp [he, hh, hs, ha, hb]

/-- Witness for `C8_unknown_command` at a concrete unmatched line. -/
theorem C8_unknown_command_witness :
    replStep (fun _ => "") (fun _ => Except.error "x") "Frobnicate now" =
      some (StepResult.cont (some
        "Unknown command: frobnicate\nType \x27help\x27 for available commands")) :=
  (C8_unknown_command (fun _ => "") (fun _ => Except.error "x")
      "Frobnicate now" "Frobnicate" ["now"] (by decide) (by decide)).trans (by decide)

/-- C9: with at least two argument tokens and a non-empty credential, the `ai`
handler's result is determined by the external call at exactly the question
obtained by space-joining all its argument tokens except the first — the
token immediately after `ai` is dropped from the forwarded question. -/
theorem C9_question_drops_first (getenv : String → String)
    (call : String → Except String ChatCompletionResponse)
    (args : List String) (w : String) (rest : List String)
    (hargs : args = w :: rest) (h2 : 2 ≤ args.length)
    (hk : getenv "OPENAI_API_KEY" ≠ "") :
    aiQuestion args = String.intercalate " " rest
    ∧ aiExecute getenv call args =
        (match GetHelp (call (String.intercalate " " rest)) with
         | none => none
         | some (Except.error e) => some ("Error getting AI help: " ++ e)
         | some (Except.ok response) => some response) := by
  subst hargs
  refine ⟨rfl, ?_⟩
  have hn : ¬ (w :: rest).length < 2 := by
    simp only [List.length_cons] at h2 ⊢
    omega
  unfold aiExecute
  rw [if_neg hn, if_neg hk]
  rfl

/-- Witness for `C9_question_drops_first` with an echoing external call: the
token `help` after `ai` does not reach the question. -/
theorem C9_question_drops_first_witness :
    aiExecute (fun _ => "sk")
      (fun q => Except.ok { choices := [{ message := { content := q } }] })
      ["help", "how", "do"] = some "how do" := by
  have h := C9_question_drops_first (fun _ => "sk")
      (fun q => Except.ok { choices := [{ message := { content := q } }] })
      ["help", "how", "do"] "help" ["how", "do"] rfl (by decide) (by decide)
  rw [h.2]
  rfl

/-- C10: the `abb` subcommand word and the topic/command keys are matched
case-sensitively (only the REPL's first token is case-folded): a subcommand
word differing from the three literal subcommands —  in particular any
re-cased variant — hits the unknown-subcommand message; any re-cased variant
of a stored key misses both stores; and re-casing the first token of the
line does not change dispatch. -/
theorem C10_case_sensitive_lookup :
    (∀ s rest, s ∉ (["command", "quickref", "list"] : List String) →
      abbExecute (s :: rest) = "Unknown ABB subcommand. Available: command, quickref, list")
    ∧ (∀ v k, k ∈ Commands.map Prod.fst → lowerString v = k → v ≠ k →
        abbExecute ["command", v] =
          "Unknown ABB command. Type \x27abb command\x27 to see available commands.")
    ∧ (∀ v k, k ∈ QuickReference.map Prod.fst → lowerString v = k → v ≠ k →
        abbExecute ["quickref", v] =
          "Unknown topic. Type \x27abb quickref\x27 to see available topics.")
    ∧ (∀ getenv call, replStep getenv call "ABB command move_j" =
        replStep getenv call "abb command move_j") := by
  have keylow : ∀ {α : Type} (l : List (String × α)),
      (∀ x ∈ l.map Prod.fst, lowerString x = x) →
      ∀ v k, k ∈ l.map Prod.fst → lowerString v = k → v ≠ k →
        v ∉ l.map Prod.fst := by
    intro α l hall v k hk hlow hne hvmem
    have hv : lowerString v = v := hall v hvmem
    exact hne (by rw [← hlow, hv])
  refine ⟨?_, ?_, ?_, ?_⟩
  · intro s rest hs
    simp only [List.mem_cons, List.not_mem_nil, or_false, not_or] at hs
    obtain ⟨h1, h2, h3⟩ := hs
    simp [abbExecute, h1, h2, h3]
  · intro v k hk hlow hne
    have hv : v ∉ Commands.map Prod.fst :=
      keylow Commands (by decide) v k hk hlow hne
    rw [abbExecute_command_key, lookup_eq_none_of_not_mem v Commands hv]
  · intro v k hk hlow hne
    have hv : v ∉ QuickReference.map Prod.fst :=
      keylow QuickReference (by decide) v k hk hlow hne
    rw [abbExecute_quickref_key, lookup_eq_none_of_not_mem v QuickReference hv]
  · intro getenv call
    rw [replStep_cons getenv call "ABB command move_j" "ABB" ["command", "move_j"] (by decide),
        replStep_cons getenv call "abb command move_j" "abb" ["command", "move_j"] (by decide)]
    rfl

/-- Witness for `C10_case_sensitive_lookup` at re-cased concrete inputs. -/
theorem C10_case_sensitive_lookup_witness :
    abbExecute ["Command", "move_j"] =
      "Unknown ABB subcommand. Available: command, quickref, list"
    ∧ abbExecute ["command", "MOVE_J"] =
        "Unknown ABB command. Type \x27abb command\x27 to see available commands."
    ∧ abbExecute ["quickref", "Safety"] =
        "Unknown topic. Type \x27abb quickref\x27 to see available topics." :=
  ⟨C10_case_sensitive_lookup.1 "Command" ["move_j"] (by decide),
   C10_case_sensitive_lookup.2.1 "MOVE_J" "move_j" (by decide) (by decide) (by decide),
   C10_case_sensitive_lookup.2.2.1 "Safety" "safety" (by decide) (by decide) (by decide)⟩
